import Mathlib

/-!
Shallow embedding of `dynamic_dynamodb/core/gsi.py` (GSI provisioning core).

Conventions used throughout:
* Python strings are modelled as `List Char` where character-level operations
  (split, join, lexicographic comparison) matter, and as Lean `String` where
  only equality tests occur (e.g. comparing an option value against
  `"percent"` or a status against `"ACTIVE"`).
* Machine integers are `Nat` (all capacities, thresholds and percentages in
  the source are non-negative integers by the time they are compared).
* External collaborators (the `calculators`, `statistics`, `dynamodb`,
  `circuit_breaker` and `config_handler` modules, none of which are part of
  this repository's source) are modelled as an explicit environment: their
  return values are fields of `Gsi.Env`, and the configuration options read
  through `get_table_option` are fields of `Gsi.TableOptions`.
* Side effects (remote calls and log lines) are modelled as an event trace;
  a raised Python exception that escapes the code under consideration is
  modelled in the `exc` field of `Gsi.Outcome`.
-/

namespace Gsi

/-- Python single-character `str.split(sep)` (no maxsplit): splits a string,
keeping empty pieces, so that `splitChar ',' [] = [[]]` just as
`''.split(',') == ['']` in Python. -/
def splitChar (sep : Char) : List Char → List (List Char)
  | [] => [[]]
  | c :: cs =>
    if c = sep then
      [] :: splitChar sep cs
    else
      match splitChar sep cs with
      | [] => [[c]]
      | w :: ws => (c :: w) :: ws

/-- Python `str.split(sep, 1)` restricted to the success/failure shape used at
`gsi.py:263`: `window.split('-', 1)` unpacked into two variables succeeds
exactly when the string contains the separator, and otherwise raises
`ValueError`; `none` models the `ValueError` case. -/
def split1 (sep : Char) : List Char → Option (List Char × List Char)
  | [] => none
  | c :: cs =>
    if c = sep then
      some ([], cs)
    else
      match split1 sep cs with
      | none => none
      | some (a, b) => some (c :: a, b)

/-- Python `''.join(s.split(':'))`, i.e. removal of every `':'` character
(`gsi.py:273-274`). -/
def removeColons (s : List Char) : List Char := s.filter (fun c => c ≠ ':')

/-- Python string `<=` comparison: lexicographic on code points. -/
def pyStrLe : List Char → List Char → Bool
  | [], _ => true
  | _ :: _, [] => false
  | a :: as, b :: bs =>
    if a.val < b.val then true
    else if b.val < a.val then false
    else pyStrLe as bs

/-- The parsing loop of `__is_maintenance_window` (`gsi.py:260-269`): each
window is split on the first `'-'`; the first window that does not contain
a `'-'` makes the whole function return `False` (after logging an error),
modelled by `none`. -/
def parseMaintenanceWindows :
    List (List Char) → Option (List (List Char × List Char))
  | [] => some []
  | w :: rest =>
    match split1 '-' w with
    | none => none
    | some se =>
      match parseMaintenanceWindows rest with
      | none => none
      | some l => some (se :: l)

/-- `__is_maintenance_window(table_name, maintenance_windows)` from
`gsi.py:250-278`, with the current UTC time (already formatted as `HHMM`,
the result of `strftime` at `gsi.py:271`) passed explicitly.  Returns `true`
iff some configured window, after stripping colons from its endpoints,
satisfies `start <= now <= end` under Python string comparison; returns
`false` when any window is malformed (no `'-'`). -/
def is_maintenance_window (now : List Char) (maintenance_windows : List Char) :
    Bool :=
  match parseMaintenanceWindows (splitChar ',' maintenance_windows) with
  | none => false
  | some l =>
    l.any fun mw =>
      pyStrLe (removeColons mw.1) now && pyStrLe now (removeColons mw.2)

/-- The per-table configuration options read through
`get_table_option(key_name, ...)` in `gsi.py`.  `maintenance_windows = []`
models an unset/empty option (falsy in Python). -/
structure TableOptions where
  allow_scaling_down_reads_on_0_percent : Bool
  allow_scaling_down_writes_on_0_percent : Bool
  gsi_reads_upper_threshold : Nat
  gsi_reads_lower_threshold : Nat
  gsi_writes_upper_threshold : Nat
  gsi_writes_lower_threshold : Nat
  gsi_increase_reads_unit : String
  gsi_decrease_reads_unit : String
  gsi_increase_writes_unit : String
  gsi_decrease_writes_unit : String
  gsi_increase_reads_with : Nat
  gsi_decrease_reads_with : Nat
  gsi_increase_writes_with : Nat
  gsi_decrease_writes_with : Nat
  gsi_max_provisioned_reads : Nat
  gsi_max_provisioned_writes : Nat
  gsi_min_provisioned_reads : Nat
  gsi_min_provisioned_writes : Nat
  maintenance_windows : List Char
  always_decrease_rw_together : Bool
deriving DecidableEq

/-- The capacity calculators imported from `dynamic_dynamodb.calculators.gsi`
(not part of this repository's source): each takes the current unit count and
the configured amount and returns the new unit count.  The extra
`key_name`/`table_name`/`index_name` arguments of the Python functions are
used only for logging and are omitted. -/
structure Calculators where
  increase_reads_in_percent : Nat → Nat → Nat
  increase_reads_in_units : Nat → Nat → Nat
  decrease_reads_in_percent : Nat → Nat → Nat
  decrease_reads_in_units : Nat → Nat → Nat
  increase_writes_in_percent : Nat → Nat → Nat
  increase_writes_in_units : Nat → Nat → Nat
  decrease_writes_in_percent : Nat → Nat → Nat
  decrease_writes_in_units : Nat → Nat → Nat

/-- The values returned by `dynamic_dynamodb.statistics.gsi` for one GSI:
provisioned units and consumed-percent observations. -/
structure GsiStats where
  provisioned_read_units : Nat
  provisioned_write_units : Nat
  consumed_read_units_percent : Nat
  consumed_write_units_percent : Nat
deriving DecidableEq

/-- Steps 2-5 of `__ensure_provisioning_reads` (`gsi.py:90-148`): the
zero-consumption skip, the upper-threshold increase and the lower-threshold
decrease, before the max-provisioned ceiling is applied.  Returns
`(update_needed, updated_read_units)`. -/
def __ensure_provisioning_reads_threshold (opts : TableOptions)
    (calcs : Calculators) (stats : GsiStats) : Bool × Nat :=
  let updated_read_units := stats.provisioned_read_units
  let consumed_read_units_percent := stats.consumed_read_units_percent
  if consumed_read_units_percent = 0 ∧
      opts.allow_scaling_down_reads_on_0_percent = false then
    (false, updated_read_units)
  else if consumed_read_units_percent ≥ opts.gsi_reads_upper_threshold then
    let updated_provisioning :=
      if opts.gsi_increase_reads_unit = "percent" then
        calcs.increase_reads_in_percent updated_read_units
          opts.gsi_increase_reads_with
      else
        calcs.increase_reads_in_units updated_read_units
          opts.gsi_increase_reads_with
    if updated_read_units ≠ updated_provisioning then
      (true, updated_provisioning)
    else
      (false, updated_read_units)
  else if consumed_read_units_percent ≤ opts.gsi_reads_lower_threshold then
    let updated_provisioning :=
      if opts.gsi_decrease_reads_unit = "percent" then
        calcs.decrease_reads_in_percent updated_read_units
          opts.gsi_decrease_reads_with
      else
        calcs.decrease_reads_in_units updated_read_units
          opts.gsi_decrease_reads_with
    if updated_read_units ≠ updated_provisioning then
      (true, updated_provisioning)
    else
      (false, updated_read_units)
  else
    (false, updated_read_units)

/-- `__ensure_provisioning_reads` (`gsi.py:79-159`): the threshold steps
followed by the `gsi_max_provisioned_reads` ceiling (`gsi.py:150-159`),
which forces the value down to the maximum and sets `update_needed`. -/
def __ensure_provisioning_reads (opts : TableOptions) (calcs : Calculators)
    (stats : GsiStats) : Bool × Nat :=
  let r := __ensure_provisioning_reads_threshold opts calcs stats
  if r.2 > opts.gsi_max_provisioned_reads then
    (true, opts.gsi_max_provisioned_reads)
  else
    r

/-- Steps 2-5 of `__ensure_provisioning_writes` (`gsi.py:173-232`), before
the max-provisioned ceiling. -/
def __ensure_provisioning_writes_threshold (opts : TableOptions)
    (calcs : Calculators) (stats : GsiStats) : Bool × Nat :=
  let updated_write_units := stats.provisioned_write_units
  let consumed_write_units_percent := stats.consumed_write_units_percent
  if consumed_write_units_percent = 0 ∧
      opts.allow_scaling_down_writes_on_0_percent = false then
    (false, updated_write_units)
  else if consumed_write_units_percent ≥ opts.gsi_writes_upper_threshold then
    let updated_provisioning :=
      if opts.gsi_increase_writes_unit = "percent" then
        calcs.increase_writes_in_percent updated_write_units
          opts.gsi_increase_writes_with
      else
        calcs.increase_writes_in_units updated_write_units
          opts.gsi_increase_writes_with
    if updated_write_units ≠ updated_provisioning then
      (true, updated_provisioning)
    else
      (false, updated_write_units)
  else if consumed_write_units_percent ≤ opts.gsi_writes_lower_threshold then
    let updated_provisioning :=
      if opts.gsi_decrease_writes_unit = "percent" then
        calcs.decrease_writes_in_percent updated_write_units
          opts.gsi_decrease_writes_with
      else
        calcs.decrease_writes_in_units updated_write_units
          opts.gsi_decrease_writes_with
    if updated_write_units ≠ updated_provisioning then
      (true, updated_provisioning)
    else
      (false, updated_write_units)
  else
    (false, updated_write_units)

/-- `__ensure_provisioning_writes` (`gsi.py:162-247`): the threshold steps
followed by the `gsi_max_provisioned_writes` ceiling (`gsi.py:234-247`). -/
def __ensure_provisioning_writes (opts : TableOptions) (calcs : Calculators)
    (stats : GsiStats) : Bool × Nat :=
  let r := __ensure_provisioning_writes_threshold opts calcs stats
  if r.2 > opts.gsi_max_provisioned_writes then
    (true, opts.gsi_max_provisioned_writes)
  else
    r

/-- One observable effect of the core: a remote interaction with the
collaborator modules or a log line.  `remote_update` records the final
`(read, write)` pair handed to `table.update` at `gsi.py:361-365`. -/
inductive Event where
  | list_gsis : Event
  | fetch_read_stats : Event
  | fetch_write_stats : Event
  | get_table : Event
  | get_gsi_status : Event
  | remote_update : Nat → Nat → Event
  | log_info : String → Event
  | log_warning : String → Event
  | log_error : String → Event
deriving DecidableEq

/-- A Python exception escaping the code under consideration.  `typeError`
models the `TypeError` Python raises when a function is called with the
wrong number of positional arguments. -/
inductive PyException where
  | typeError : PyException
deriving DecidableEq

/-- Result of running a piece of the core: the trace of observable events in
order, and the exception that escaped, if any. -/
structure Outcome where
  events : List Event
  exc : Option PyException
deriving DecidableEq

/-- Result of the remote `table.update` call: success, or a
`DynamoDBResponseError` whose `__type` tail (after `rsplit` on the hash sign,
`gsi.py:369`) is the given string. -/
inductive UpdateResult where
  | ok : UpdateResult
  | err : String → UpdateResult
deriving DecidableEq

/-- The full environment of external collaborators for one evaluation:
global options, circuit-breaker state, the table's GSIs, per-index
statistics, the remote table's state and the outcome the remote system gives
to an update request. -/
structure Env where
  /-- Truthiness of `get_global_option` applied to the breaker URL option. -/
  circuit_breaker_url : Bool
  /-- `circuit_breaker.is_open()`. -/
  circuit_breaker_open : Bool
  /-- Names of the GSIs returned by `dynamodb.table_gsis(table_name)`. -/
  gsi_names : List String
  /-- The per-table configuration behind `get_table_option(key_name, ...)`. -/
  opts : TableOptions
  /-- The imported calculator functions. -/
  calcs : Calculators
  /-- Statistics per index name. -/
  stats : String → GsiStats
  /-- Whether `dynamodb.get_table` succeeds (`false` models the
  `DynamoDBResponseError` caught at `gsi.py:296-300`). -/
  table_exists : Bool
  /-- Current UTC time formatted `HHMM` (`gsi.py:271`). -/
  now : List Char
  /-- `dynamodb.get_gsi_status(table_name)`. -/
  gsi_status : String
  /-- Truthiness of `get_global_option` applied to the dry-run option. -/
  dry_run : Bool
  /-- `table.throughput` read value: the table's last-known actual read
  capacity. -/
  table_throughput_read : Nat
  /-- `table.throughput` write value: the table's last-known actual write
  capacity. -/
  table_throughput_write : Nat
  /-- Outcome of the remote `table.update` call. -/
  update_result : UpdateResult

/-- The coupled-scale-down step of `update_throughput` (`gsi.py:331-357`),
acting on the proposed `(read_units, write_units)` given the current values
`current_ru`/`current_wu` computed at `gsi.py:302-305`.  The first branch
(both dimensions qualify) only logs; the second branch assigns
`read_units = current_ru`; the third assigns `write_units = current_wu`.
Log lines inside this step are not recorded in the trace. -/
def coupled_scale_down (opts : TableOptions)
    (read_units write_units current_ru current_wu : Nat) : Nat × Nat :=
  if opts.always_decrease_rw_together then
    if read_units < current_ru ∨
        current_ru = opts.gsi_min_provisioned_reads then
      (read_units, write_units)
    else if read_units < current_ru then
      (current_ru, write_units)
    else if write_units < current_wu then
      (read_units, current_wu)
    else
      (read_units, write_units)
  else
    (read_units, write_units)

/-- Events common to every path of `update_throughput` that reaches the
GSI-status check: fetching the table, the two statistics fetches at
`gsi.py:302-305` (both call `get_provisioned_read_units` in the source),
the optional maintenance-window log, the status fetch, and the warning
logged when the status is not `ACTIVE` (`gsi.py:324-327`; note the source
does NOT return after this warning). -/
def preUpdateEvents (env : Env) : List Event :=
  [Event.get_table, Event.fetch_read_stats, Event.fetch_read_stats] ++
    (if env.opts.maintenance_windows ≠ [] then
      [Event.log_info ("within maintenance window")]
    else []) ++
    [Event.get_gsi_status] ++
    (if env.gsi_status = "ACTIVE" then []
     else [Event.log_warning ("not performing throughput changes")])

/-- The `table.update` call and the exception handler of `update_throughput`
(`gsi.py:360-418`).  On `LimitExceededException`, the source recurses with
`update_throughput(table_name, <units>, <units>, key_name)` — four positional
arguments for a five-parameter function (`gsi.py:378-382` and
`gsi.py:388-392`) — so Python raises `TypeError` at the recursive call site,
before any code of the callee runs; the `TypeError` is not caught by the
surrounding `except DynamoDBResponseError` and escapes. -/
def attempt_update (env : Env) (read_units write_units : Nat) : Outcome :=
  match env.update_result with
  | UpdateResult.ok =>
    { events := preUpdateEvents env ++
        [Event.remote_update read_units write_units,
         Event.log_info ("Provisioning updated")],
      exc := none }
  | UpdateResult.err dynamodb_error =>
    if dynamodb_error = "LimitExceededException" then
      if read_units > env.table_throughput_read then
        { events := preUpdateEvents env ++
            [Event.remote_update read_units write_units,
             Event.log_warning ("limit exceeded"),
             Event.log_info ("Scaling up reads")],
          exc := some PyException.typeError }
      else if write_units > env.table_throughput_write then
        { events := preUpdateEvents env ++
            [Event.remote_update read_units write_units,
             Event.log_warning ("limit exceeded"),
             Event.log_info ("Scaling up writes")],
          exc := some PyException.typeError }
      else
        { events := preUpdateEvents env ++
            [Event.remote_update read_units write_units,
             Event.log_warning ("limit exceeded")],
          exc := none }
    else if dynamodb_error = "ValidationException" then
      { events := preUpdateEvents env ++
          [Event.remote_update read_units write_units,
           Event.log_warning ("ValidationException")],
        exc := none }
    else if dynamodb_error = "ResourceInUseException" then
      { events := preUpdateEvents env ++
          [Event.remote_update read_units write_units,
           Event.log_warning ("ResourceInUseException")],
        exc := none }
    else if dynamodb_error = "AccessDeniedException" then
      { events := preUpdateEvents env ++
          [Event.remote_update read_units write_units,
           Event.log_warning ("AccessDeniedException")],
        exc := none }
    else
      { events := preUpdateEvents env ++
          [Event.remote_update read_units write_units,
           Event.log_error ("Unhandled exception")],
        exc := none }

/-- `update_throughput(table_name, index_name, read_units, write_units,
key_name)` from `gsi.py:281-418`, called with its five parameters properly
bound.  In order: the table fetch (early return `None` if the table is
gone), the two `get_provisioned_read_units` fetches that populate both
`current_ru` and `current_wu` (`gsi.py:302-305`), the maintenance-window
gate, the GSI-status check (which only logs), the coupled-scale-down step,
the dry-run gate, and the update attempt with its exception handler. -/
def update_throughput (env : Env) (table_name index_name : String)
    (read_units write_units : Nat) (key_name : String) : Outcome :=
  if env.table_exists = false then
    { events := [Event.get_table], exc := none }
  else if env.opts.maintenance_windows ≠ [] ∧
      is_maintenance_window env.now env.opts.maintenance_windows = false then
    { events :=
        [Event.get_table, Event.fetch_read_stats, Event.fetch_read_stats,
         Event.log_warning ("outside maintenance window")],
      exc := none }
  else if env.dry_run then
    { events := preUpdateEvents env, exc := none }
  else
    attempt_update env
      (coupled_scale_down env.opts read_units write_units
        (env.stats index_name).provisioned_read_units
        (env.stats index_name).provisioned_read_units).1
      (coupled_scale_down env.opts read_units write_units
        (env.stats index_name).provisioned_read_units
        (env.stats index_name).provisioned_read_units).2

/-- The call `update_throughput(table_name, updated_read_units,
updated_write_units, key_name)` at `gsi.py:66-70`: four positional arguments
for the five required positional parameters of `update_throughput`
(`gsi.py:281-282`), so Python raises
`TypeError: update_throughput() missing 1 required positional argument`
at the call site; no code of `update_throughput` runs and no remote call is
made by it. -/
def update_throughput_call_with_4_args (env : Env) (table_name : String)
    (read_units write_units : Nat) (key_name : String) : Outcome :=
  { events := [], exc := some PyException.typeError }

/-- `ensure_provisioning(table_name, key_name)` from `gsi.py:14-76`: the
circuit-breaker gate, the GSI listing, and the per-index loop running both
decision functions and, when either flags an update, the (mis-arity) call to
`update_throughput`.  A raised exception aborts the loop, as in Python. -/
def ensure_provisioning (env : Env) (table_name key_name : String) :
    Outcome :=
  if env.circuit_breaker_url && env.circuit_breaker_open then
    { events := [Event.log_warning ("Circuit breaker is OPEN")], exc := none }
  else if env.gsi_names = [] then
    { events := [Event.list_gsis], exc := none }
  else
    env.gsi_names.foldl
      (fun acc index_name =>
        if acc.exc ≠ none then
          acc
        else
          let r := __ensure_provisioning_reads env.opts env.calcs
            (env.stats index_name)
          let w := __ensure_provisioning_writes env.opts env.calcs
            (env.stats index_name)
          let ev := acc.events ++
            [Event.fetch_read_stats, Event.fetch_write_stats]
          if r.1 || w.1 then
            let c := update_throughput_call_with_4_args env table_name
              r.2 w.2 key_name
            { events := ev ++
                [Event.log_info ("Changing provisioning")] ++ c.events,
              exc := c.exc }
          else
            { events := ev ++
                [Event.log_info ("No need to change provisioning")],
              exc := none })
      { events := [Event.list_gsis,
          Event.log_info ("Will ensure provisioning")], exc := none }

/-- Events that are remote interactions (as opposed to log lines). -/
def isRemoteCall : Event → Bool
  | Event.list_gsis => true
  | Event.fetch_read_stats => true
  | Event.fetch_write_stats => true
  | Event.get_table => true
  | Event.get_gsi_status => true
  | Event.remote_update _ _ => true
  | _ => false

/-- Events that are remote capacity-update requests. -/
def isRemoteUpdate : Event → Bool
  | Event.remote_update _ _ => true
  | _ => false

/-- The log line announcing a provisioning change (`gsi.py:59-65`). -/
def isChangeDecisionLog : Event → Bool
  | Event.log_info m => m == "Changing provisioning"
  | _ => false

/-! ### Concrete fixtures used to evaluate the embedded code -/

/-- A concrete instantiation of the external calculators: absolute units add
or subtract; percent mode adds or subtracts the (floor of the) percentage of
the current value. -/
def calcsA : Calculators where
  increase_reads_in_percent := fun u a => u + u * a / 100
  increase_reads_in_units := fun u a => u + a
  decrease_reads_in_percent := fun u a => u - u * a / 100
  decrease_reads_in_units := fun u a => u - a
  increase_writes_in_percent := fun u a => u + u * a / 100
  increase_writes_in_units := fun u a => u + a
  decrease_writes_in_percent := fun u a => u - u * a / 100
  decrease_writes_in_units := fun u a => u - a

/-- A baseline configuration: thresholds 80/20, absolute-unit changes of 10,
maxima 1000, minima 1, no maintenance windows, no coupled scale-down. -/
def optsBase : TableOptions where
  allow_scaling_down_reads_on_0_percent := false
  allow_scaling_down_writes_on_0_percent := false
  gsi_reads_upper_threshold := 80
  gsi_reads_lower_threshold := 20
  gsi_writes_upper_threshold := 80
  gsi_writes_lower_threshold := 20
  gsi_increase_reads_unit := "units"
  gsi_decrease_reads_unit := "units"
  gsi_increase_writes_unit := "units"
  gsi_decrease_writes_unit := "units"
  gsi_increase_reads_with := 10
  gsi_decrease_reads_with := 10
  gsi_increase_writes_with := 10
  gsi_decrease_writes_with := 10
  gsi_max_provisioned_reads := 1000
  gsi_max_provisioned_writes := 1000
  gsi_min_provisioned_reads := 1
  gsi_min_provisioned_writes := 1
  maintenance_windows := []
  always_decrease_rw_together := false

/-- Like `optsBase` but with provisioning maxima of 50 in both dimensions. -/
def optsLowMax : TableOptions :=
  { optsBase with
    gsi_max_provisioned_reads := 50
    gsi_max_provisioned_writes := 50 }

/-- Like `optsBase` but requiring reads and writes to decrease together. -/
def optsCoupled : TableOptions :=
  { optsBase with always_decrease_rw_together := true }

/-- Quiet statistics: 100/100 provisioned, 50 percent consumed each way. -/
def statsBase : GsiStats where
  provisioned_read_units := 100
  provisioned_write_units := 100
  consumed_read_units_percent := 50
  consumed_write_units_percent := 50

/-- Statistics with zero consumption in both dimensions. -/
def statsZero : GsiStats where
  provisioned_read_units := 100
  provisioned_write_units := 100
  consumed_read_units_percent := 0
  consumed_write_units_percent := 0

/-- Zero consumption at a modest 40/40 provisioned units. -/
def statsMid : GsiStats where
  provisioned_read_units := 40
  provisioned_write_units := 40
  consumed_read_units_percent := 0
  consumed_write_units_percent := 0

/-- Hot reads (100 percent consumed), idle writes (0 percent consumed). -/
def statsHot : GsiStats where
  provisioned_read_units := 100
  provisioned_write_units := 100
  consumed_read_units_percent := 100
  consumed_write_units_percent := 0

/-- Baseline environment: breaker not configured, one GSI, table present and
ACTIVE, no dry run, remote update succeeds, table's last-known actual
capacity (100 reads, 50 writes). -/
def envBase : Env where
  circuit_breaker_url := false
  circuit_breaker_open := false
  gsi_names := ["gsi1"]
  opts := optsBase
  calcs := calcsA
  stats := fun _ => statsBase
  table_exists := true
  now := "1200".data
  gsi_status := "ACTIVE"
  dry_run := false
  table_throughput_read := 100
  table_throughput_write := 50
  update_result := UpdateResult.ok

/-- Environment in which the read decision flags an update (reads at 100
percent against an 80 percent upper threshold). -/
def envC1 : Env := { envBase with stats := fun _ => statsHot }

/-- Environment for the coupled-scale-down evaluation: coupling enabled,
actual capacity 100 reads / 25 writes. -/
def envC2 : Env :=
  { envBase with
    opts := optsCoupled
    stats := fun _ =>
      { provisioned_read_units := 100
        provisioned_write_units := 25
        consumed_read_units_percent := 10
        consumed_write_units_percent := 50 } }

/-- Environment in which the remote update is rejected with
`LimitExceededException`. -/
def envC3 : Env :=
  { envBase with update_result := UpdateResult.err ("LimitExceededException") }

/-- Environment in which the re-fetched GSI status is not ACTIVE. -/
def envC4 : Env := { envBase with gsi_status := "UPDATING" }

/-- Environment with the circuit breaker configured and open. -/
def envC9 : Env :=
  { envBase with circuit_breaker_url := true, circuit_breaker_open := true }

/-! ### Helper lemmas -/

/-- A window containing no `'-'` makes `split1 '-'` fail, i.e. the Python
two-variable unpacking of `window.split('-', 1)` raises `ValueError`. -/
theorem split1_eq_none_of_not_mem {w : List Char} (h : '-' ∉ w) :
    split1 '-' w = none := by
  induction w with
  | nil => rfl
  | cons c cs ih =>
    simp only [List.mem_cons, not_or] at h
    unfold split1
    rw [if_neg (Ne.symm h.1), ih h.2]

/-- If any window in the list fails to parse, the whole parsing loop fails. -/
theorem parseMaintenanceWindows_eq_none {ws : List (List Char)}
    {w : List Char} (hmem : w ∈ ws) (hw : split1 '-' w = none) :
    parseMaintenanceWindows ws = none := by
  induction ws with
  | nil => cases hmem
  | cons x xs ih =>
    rcases List.mem_cons.mp hmem with h | h
    · subst h
      unfold parseMaintenanceWindows
      rw [hw]
    · unfold parseMaintenanceWindows
      cases hx : split1 '-' x with
      | none => rfl
      | some se => rw [ih h]

/-- The events preceding the update attempt contain no capacity-update
request. -/
theorem preUpdateEvents_no_remote_update (env : Env) :
    (preUpdateEvents env).filter isRemoteUpdate = [] := by
  unfold preUpdateEvents
  split_ifs <;> rfl

/-- Each update attempt issues exactly one capacity-update request, carrying
the pair it was given. -/
theorem attempt_update_filter_remote (env : Env) (r w : Nat) :
    (attempt_update env r w).events.filter isRemoteUpdate
      = [Event.remote_update r w] := by
  unfold attempt_update
  cases henv : env.update_result with
  | ok =>
    simp [List.filter_append, preUpdateEvents_no_remote_update,
      List.filter_cons, isRemoteUpdate]
  | err e =>
    dsimp only
    by_cases h1 : e = "LimitExceededException"
    · rw [if_pos h1]
      by_cases h2 : r > env.table_throughput_read
      · rw [if_pos h2]
        simp [List.filter_append, preUpdateEvents_no_remote_update,
          List.filter_cons, isRemoteUpdate]
      · rw [if_neg h2]
        by_cases h3 : w > env.table_throughput_write
        · rw [if_pos h3]
          simp [List.filter_append, preUpdateEvents_no_remote_update,
            List.filter_cons, isRemoteUpdate]
        · rw [if_neg h3]
          simp [List.filter_append, preUpdateEvents_no_remote_update,
            List.filter_cons, isRemoteUpdate]
    · rw [if_neg h1]
      by_cases h2 : e = "ValidationException"
      · rw [if_pos h2]
        simp [List.filter_append, preUpdateEvents_no_remote_update,
          List.filter_cons, isRemoteUpdate]
      · rw [if_neg h2]
        by_cases h3 : e = "ResourceInUseException"
        · rw [if_pos h3]
          simp [List.filter_append, preUpdateEvents_no_remote_update,
            List.filter_cons, isRemoteUpdate]
        · rw [if_neg h3]
          by_cases h4 : e = "AccessDeniedException"
          · rw [if_pos h4]
            simp [List.filter_append, preUpdateEvents_no_remote_update,
              List.filter_cons, isRemoteUpdate]
          · rw [if_neg h4]
            simp [List.filter_append, preUpdateEvents_no_remote_update,
              List.filter_cons, isRemoteUpdate]

/-! ### Claim theorems -/

/-- C10: in every execution of `update_throughput` with coupled scale-down
enabled, the coupled-scale-down step never modifies the read proposal —
the branch at `gsi.py:344-350` that would assign `read_units = current_ru`
is guarded by `read_units < current_ru`, which is false whenever that
branch is reached (the first branch already caught it) — and the write
proposal is either passed through or reverted to its current value.  Stated
for all inputs, so in particular whenever coupling is enabled. -/
theorem coupled_scale_down_never_modifies_reads (opts : TableOptions)
    (read_units write_units current_ru current_wu : Nat) :
    (coupled_scale_down opts read_units write_units
        current_ru current_wu).1 = read_units ∧
    ((coupled_scale_down opts read_units write_units
        current_ru current_wu).2 = write_units ∨
     (coupled_scale_down opts read_units write_units
        current_ru current_wu).2 = current_wu) := by
  unfold coupled_scale_down
  split_ifs with h1 h2 h3 h4 <;> simp_all

/-- C8 (amended): a maintenance-window string containing a window with no
`'-'` separator makes the whole check fail closed: it reports "not in
window" (returns `False`) regardless of the current time and of any other
windows, after logging the malformation as an error (no exception is
raised). -/
theorem malformed_window_fails_closed (now mw w : List Char)
    (hmem : w ∈ splitChar ',' mw) (hnd : '-' ∉ w) :
    is_maintenance_window now mw = false := by
  unfold is_maintenance_window
  rw [parseMaintenanceWindows_eq_none hmem (split1_eq_none_of_not_mem hnd)]

/-- Witness for C8 (amended): the string `09001000,10:00-11:00` contains the
separator-less window `09001000`, and the check reports "not in window"
even at a time (10:30) inside the well-formed second window. -/
theorem malformed_window_fails_closed_witness :
    (("09001000".data) ∈ splitChar ',' ("09001000,10:00-11:00".data) ∧
      '-' ∉ ("09001000".data)) ∧
    is_maintenance_window ("1030".data) ("09001000,10:00-11:00".data)
      = false :=
  ⟨⟨by decide, by decide⟩,
    malformed_window_fails_closed ("1030".data)
      ("09001000,10:00-11:00".data) ("09001000".data)
      (by decide) (by decide)⟩

/-- C8 counterexample: the spec's example `0900-1000` is not missing its
`'-'` separator — it parses as the window 09:00-10:00, and at 09:30 the
check silently reports "permitted" instead of failing closed. -/
theorem dashed_window_reports_permitted :
    is_maintenance_window ("0930".data) ("0900-1000".data) = true := by
  decide

/-- C5: the retry-by-splitting path of `update_throughput` terminates for
every input and issues at most two capacity-update requests per call — in
the source as written it issues at most one, because the recursive
single-dimension retry at `gsi.py:378-392` passes four positional arguments
to the five-parameter `update_throughput` and therefore raises `TypeError`
before any further request can be made, so the recursion depth never
exceeds one split. -/
theorem update_throughput_retry_bounded (env : Env)
    (table_name index_name : String) (read_units write_units : Nat)
    (key_name : String) :
    ((update_throughput env table_name index_name read_units write_units
        key_name).events.filter isRemoteUpdate).length ≤ 2 := by
  unfold update_throughput
  split_ifs <;>
    simp [attempt_update_filter_remote, preUpdateEvents_no_remote_update,
      List.filter_append, List.filter_cons, isRemoteUpdate]

/-- C1 (failing input evaluated): in an evaluation where the read decision
flags an update (reads 100 percent consumed against an 80 percent upper
threshold), `ensure_provisioning` does not make one parameter-correct call
to the Throughput Updater: the call at `gsi.py:66-70` passes four positional
arguments to the five-parameter `update_throughput`, so Python raises
`TypeError` (the proposed read units land in `index_name` and `key_name`
goes unbound) and no remote capacity update is ever issued. -/
theorem ensure_provisioning_update_call_raises_type_error :
    (ensure_provisioning envC1 ("tbl") ("key")).exc
        = some PyException.typeError ∧
    (ensure_provisioning envC1 ("tbl") ("key")).events.filter isRemoteUpdate
        = [] := by
  decide

/-- C2 (failing input evaluated): with coupled scale-down enabled, current
capacity (R, W) = (100, 25), proposal (50, 25) — an asymmetric read decrease
with reads not at the floor (minimum 1) and writes unchanged — the values
issued to the remote update are (50, 25), not the (100, 25) the spec
requires: the revert branch at `gsi.py:344-350` is unreachable. -/
theorem update_throughput_asymmetric_read_decrease_passed_through :
    envC2.opts.always_decrease_rw_together = true ∧
    (envC2.stats ("idx")).provisioned_read_units = 100 ∧
    envC2.opts.gsi_min_provisioned_reads ≠ 100 ∧
    (envC2.stats ("idx")).provisioned_write_units = 25 ∧
    (update_throughput envC2 ("tbl") ("idx") 50 25 ("key")).events.filter
        isRemoteUpdate = [Event.remote_update 50 25] := by
  decide

/-- C3 (failing input evaluated): on a `LimitExceededException` rejection of
a proposal exceeding the table's last-known actual capacity in both
dimensions (200 > 100 reads, 100 > 50 writes), the updater issues no
single-dimension retry: the recursive call at `gsi.py:378-382` passes four
positional arguments to the five-parameter `update_throughput`, so Python
raises `TypeError` and the only capacity request ever issued is the
original rejected one. -/
theorem update_throughput_limit_retry_raises_type_error :
    envC3.update_result = UpdateResult.err ("LimitExceededException") ∧
    (200 > envC3.table_throughput_read ∧
      100 > envC3.table_throughput_write) ∧
    (update_throughput envC3 ("tbl") ("idx") 200 100 ("key")).exc
        = some PyException.typeError ∧
    (update_throughput envC3 ("tbl") ("idx") 200 100 ("key")).events.filter
        isRemoteUpdate = [Event.remote_update 200 100] := by
  decide

/-- C4 (failing input evaluated): when the re-fetched GSI status is
`UPDATING` (not ACTIVE), `update_throughput` logs the warning but does not
skip: the status check at `gsi.py:324-327` has no early return, so the
remote update is issued anyway. -/
theorem update_throughput_inactive_status_still_updates :
    envC4.gsi_status ≠ "ACTIVE" ∧
    Event.log_warning ("not performing throughput changes")
        ∈ (update_throughput envC4 ("tbl") ("idx") 10 20 ("key")).events ∧
    (update_throughput envC4 ("tbl") ("idx") 10 20 ("key")).events.filter
        isRemoteUpdate = [Event.remote_update 10 20] := by
  decide

/-- C6 counterexample: with zero consumed read percent, scale-down-on-zero
disabled, 100 provisioned read units and a configured maximum of 50, the
read decision returns units strictly lower than the currently provisioned
units — the max-provisioned ceiling (`gsi.py:150-159`) lowers capacity on
this path, so the claim as stated is false. -/
theorem zero_consumption_capacity_decreases :
    statsZero.consumed_read_units_percent = 0 ∧
    optsLowMax.allow_scaling_down_reads_on_0_percent = false ∧
    (__ensure_provisioning_reads optsLowMax calcsA statsZero).2
        < statsZero.provisioned_read_units := by
  decide

/-- C6 (amended): for either dimension, if the consumed percent is exactly 0,
scale-down-on-zero is disabled for that dimension, and the currently
provisioned units do not exceed the configured maximum for that dimension,
then the units returned by the decision function are never lower than the
currently provisioned units, regardless of the threshold values. -/
theorem zero_consumption_no_decrease_below_max (opts : TableOptions)
    (calcs : Calculators) (stats : GsiStats) :
    (stats.consumed_read_units_percent = 0 →
      opts.allow_scaling_down_reads_on_0_percent = false →
      stats.provisioned_read_units ≤ opts.gsi_max_provisioned_reads →
      stats.provisioned_read_units ≤
        (__ensure_provisioning_reads opts calcs stats).2) ∧
    (stats.consumed_write_units_percent = 0 →
      opts.allow_scaling_down_writes_on_0_percent = false →
      stats.provisioned_write_units ≤ opts.gsi_max_provisioned_writes →
      stats.provisioned_write_units ≤
        (__ensure_provisioning_writes opts calcs stats).2) := by
  constructor
  · intro h1 h2 h3
    unfold __ensure_provisioning_reads __ensure_provisioning_reads_threshold
    simp [h1, h2]
    split_ifs <;> omega
  · intro h1 h2 h3
    unfold __ensure_provisioning_writes __ensure_provisioning_writes_threshold
    simp [h1, h2]
    split_ifs <;> omega

/-- Witness for C6 (amended): 40 provisioned read units, zero consumption,
scale-down-on-zero disabled, maximum 1000; the decision returns at least
40 read units. -/
theorem zero_consumption_no_decrease_below_max_witness :
    (statsMid.consumed_read_units_percent = 0 ∧
     optsBase.allow_scaling_down_reads_on_0_percent = false ∧
     statsMid.provisioned_read_units ≤ optsBase.gsi_max_provisioned_reads) ∧
    statsMid.provisioned_read_units ≤
      (__ensure_provisioning_reads optsBase calcsA statsMid).2 :=
  ⟨⟨rfl, rfl, by decide⟩,
    (zero_consumption_no_decrease_below_max optsBase calcsA statsMid).1
      rfl rfl (by decide)⟩

/-- C7: for each dimension, the units returned by the decision function
never exceed the configured maximum; and whenever the value after the
threshold steps exceeds that maximum — including when the existing
provisioned value already exceeds it on an otherwise no-change outcome —
the returned pair is exactly (change needed, maximum). -/
theorem decision_respects_max_ceiling (opts : TableOptions)
    (calcs : Calculators) (stats : GsiStats) :
    ((__ensure_provisioning_reads opts calcs stats).2
        ≤ opts.gsi_max_provisioned_reads ∧
     (__ensure_provisioning_writes opts calcs stats).2
        ≤ opts.gsi_max_provisioned_writes) ∧
    ((__ensure_provisioning_reads_threshold opts calcs stats).2
        > opts.gsi_max_provisioned_reads →
      __ensure_provisioning_reads opts calcs stats
        = (true, opts.gsi_max_provisioned_reads)) ∧
    ((__ensure_provisioning_writes_threshold opts calcs stats).2
        > opts.gsi_max_provisioned_writes →
      __ensure_provisioning_writes opts calcs stats
        = (true, opts.gsi_max_provisioned_writes)) := by
  refine ⟨⟨?_, ?_⟩, ?_, ?_⟩
  · unfold __ensure_provisioning_reads
    dsimp only
    split_ifs with h
    · simp
    · omega
  · unfold __ensure_provisioning_writes
    dsimp only
    split_ifs with h
    · simp
    · omega
  · intro h
    unfold __ensure_provisioning_reads
    dsimp only
    rw [if_pos h]
  · intro h
    unfold __ensure_provisioning_writes
    dsimp only
    rw [if_pos h]

/-- Witness for C7: zero consumption at 100 provisioned read units with a
maximum of 50: the threshold steps leave 100, the ceiling fires on this
otherwise no-change outcome, and the decision returns (true, 50). -/
theorem decision_respects_max_ceiling_witness :
    (__ensure_provisioning_reads_threshold optsLowMax calcsA statsZero).2
        > optsLowMax.gsi_max_provisioned_reads ∧
    __ensure_provisioning_reads optsLowMax calcsA statsZero
        = (true, optsLowMax.gsi_max_provisioned_reads) :=
  ⟨by decide,
    (decision_respects_max_ceiling optsLowMax calcsA statsZero).2.1
      (by decide)⟩

/-- C9: whenever the circuit breaker is configured and open,
`ensure_provisioning` makes zero remote calls — no index listing, no
capacity fetch, no table fetch, no status fetch, no update — and logs no
decision as a provisioning change before returning. -/
theorem ensure_provisioning_breaker_open_suppresses (env : Env)
    (table_name key_name : String)
    (hurl : env.circuit_breaker_url = true)
    (hopen : env.circuit_breaker_open = true) :
    (ensure_provisioning env table_name key_name).events.filter isRemoteCall
        = [] ∧
    (ensure_provisioning env table_name key_name).events.filter
        isChangeDecisionLog = [] := by
  unfold ensure_provisioning
  rw [hurl, hopen]
  simp [isRemoteCall, isChangeDecisionLog, List.filter_cons]

/-- Witness for C9: in the concrete open-breaker environment, the run makes
no remote calls and logs no change decisions. -/
theorem ensure_provisioning_breaker_open_suppresses_witness :
    (envC9.circuit_breaker_url = true ∧
     envC9.circuit_breaker_open = true) ∧
    ((ensure_provisioning envC9 ("tbl") ("key")).events.filter isRemoteCall
        = [] ∧
     (ensure_provisioning envC9 ("tbl") ("key")).events.filter
        isChangeDecisionLog = []) :=
  ⟨⟨rfl, rfl⟩,
    ensure_provisioning_breaker_open_suppresses envC9 ("tbl") ("key")
      rfl rfl⟩

end Gsi
